import Mathlib

/-!
# Verification of vrmp's command/submission pool and shared-texture lifecycle

Shallow embedding of the state-manipulating parts of `vrmp`:

* `src/vrmp/src/danger/cmdpool.rs`        — `CmdPool` (command/submission pool)
* `src/vrmp/src/danger/shared_texture.rs` — `SharedTexture` (shared-texture
  lifecycle manager)
* `src/vrmp/src/global.rs`                — `Global::main_loop` (per-tick order)
* `src/vrmp/src/vrinfo.rs`                — `VRInfo::create`

Vulkan/OpenGL handles are abstracted to natural-number identifiers; calls
into the driver (queue submits, semaphore operations, destruction) are
recorded as explicit effect lists.  Fence state lives in the driver, so
operations that poll fences take the signalled-set as a function argument.
-/

namespace Vrmp

/-! ## CmdPool (src/vrmp/src/danger/cmdpool.rs)

A command buffer is a `Nat` handle, a fence is a `Nat` handle.  `Vec::pop`
pops the *last* element and `Vec::push`/`extend` append at the end, so the
Rust vectors are embedded as Lean lists with `getLast?`/`dropLast` for `pop`
and `++ [x]` for `push`. -/

/-- One batch: command buffers submitted together under one fence
(`CmdBufAwaitingList` in the source). -/
structure CmdBufAwaitingList where
  fence : Nat
  cmd_bufs : List Nat
deriving Repr, DecidableEq

/-- The pool state (`CmdPool` in the source). -/
structure CmdPool where
  free_cmd_bufs : List Nat
  active_awaiting_lists : List CmdBufAwaitingList
  free_awaiting_lists : List CmdBufAwaitingList
  current_awaiting_list : CmdBufAwaitingList
deriving Repr, DecidableEq

namespace CmdPool

/-- The body of `evaluate_active_fences`' while-loop over
`active_awaiting_lists`: each list whose fence reads signalled is removed,
its command buffers are drained into `free_cmd_bufs` (in encounter order)
and the emptied list is pushed onto `free_awaiting_lists`; unsignalled
lists stay, in order.  Returns (remaining active lists, drained buffers,
recycled empty lists). -/
def evalLoop (signaled : Nat → Bool) :
    List CmdBufAwaitingList → List CmdBufAwaitingList × List Nat × List CmdBufAwaitingList
  | [] => ([], [], [])
  | f :: rest =>
    let r := evalLoop signaled rest
    if signaled f.fence then
      (r.1, f.cmd_bufs ++ r.2.1, { fence := f.fence, cmd_bufs := [] } :: r.2.2)
    else
      (f :: r.1, r.2.1, r.2.2)

/-- `CmdPool::evaluate_active_fences`. -/
def evaluate_active_fences (signaled : Nat → Bool) (p : CmdPool) : CmdPool :=
  let r := evalLoop signaled p.active_awaiting_lists
  { p with
    active_awaiting_lists := r.1
    free_cmd_bufs := p.free_cmd_bufs ++ r.2.1
    free_awaiting_lists := p.free_awaiting_lists ++ r.2.2 }

/-- `CmdPool::allocate_current_awaiting_list`: pop a recycled list, or make a
fresh one with a newly created (unsignalled) fence `newFence`.  Returns the
list together with the updated `free_awaiting_lists`. -/
def allocate_current_awaiting_list (newFence : Nat) (p : CmdPool) :
    CmdBufAwaitingList × List CmdBufAwaitingList :=
  match p.free_awaiting_lists.getLast? with
  | some l => (l, p.free_awaiting_lists.dropLast)
  | none => ({ fence := newFence, cmd_bufs := [] }, p.free_awaiting_lists)

/-- `CmdPool::submit_frame`: submit under the current batch's fence, move the
current batch into `active_awaiting_lists`, install a fresh current batch,
then poll the active fences. -/
def submit_frame (signaled : Nat → Bool) (newFence : Nat) (p : CmdPool) : CmdPool :=
  let a := allocate_current_awaiting_list newFence p
  let p1 : CmdPool :=
    { p with
      current_awaiting_list := a.1
      active_awaiting_lists := p.active_awaiting_lists ++ [p.current_awaiting_list]
      free_awaiting_lists := a.2 }
  evaluate_active_fences signaled p1

/-- `CmdPool::get_buf`: pop a free buffer and record it in the current batch;
`none` models the fatal `.expect` abort when the free list is empty. -/
def get_buf (p : CmdPool) : Option (Nat × CmdPool) :=
  match p.free_cmd_bufs.getLast? with
  | none => none
  | some b =>
    some (b, { p with
      free_cmd_bufs := p.free_cmd_bufs.dropLast
      current_awaiting_list :=
        { p.current_awaiting_list with
          cmd_bufs := p.current_awaiting_list.cmd_bufs ++ [b] } })

/-- Driver-visible effects of `CmdPool::shutdown`. -/
inductive PoolEffect where
  | waitFences (fences : List Nat) (timeoutNs : Nat)
  | logTimeoutError
  | destroyFence (f : Nat)
  | destroyCommandPool
deriving Repr, DecidableEq

/-- Is the effect a destruction call? -/
def PoolEffect.isDestroy : PoolEffect → Bool
  | .destroyFence _ => true
  | .destroyCommandPool => true
  | _ => false

/-- `CmdPool::shutdown`: wait on all in-flight fences with a 10-second
timeout (`Duration::from_secs(10).as_nanos()` = 10 000 000 000 ns), log on
timeout, then destroy every drained active fence, every recycled list's
fence, the current batch's fence, and the command pool — unconditionally.
The driver's wait outcome is the `timedOut` argument. -/
def shutdownEffects (timedOut : Bool) (p : CmdPool) : List PoolEffect :=
  let fences := p.active_awaiting_lists.map CmdBufAwaitingList.fence
  [PoolEffect.waitFences fences 10000000000]
    ++ (if timedOut then [PoolEffect.logTimeoutError] else [])
    ++ fences.map PoolEffect.destroyFence
    ++ p.free_awaiting_lists.map (fun l => PoolEffect.destroyFence l.fence)
    ++ [PoolEffect.destroyFence p.current_awaiting_list.fence, PoolEffect.destroyCommandPool]

/-- All command buffers tracked by the pool, with multiplicity:
free list, in-flight batches, recycled (drained) lists, current batch. -/
def allBufs (p : CmdPool) : List Nat :=
  p.free_cmd_bufs ++ (p.active_awaiting_lists.map CmdBufAwaitingList.cmd_bufs).flatten
    ++ (p.free_awaiting_lists.map CmdBufAwaitingList.cmd_bufs).flatten
    ++ p.current_awaiting_list.cmd_bufs

/-- Pool invariant: no command buffer appears twice across the free list and
the batches — each buffer is in the free list or in at most one batch. -/
def Inv (p : CmdPool) : Prop := (allBufs p).Nodup

instance (p : CmdPool) : Decidable (Inv p) := by unfold Inv; infer_instance

end CmdPool

/-! ## SharedTexture (src/vrmp/src/danger/shared_texture.rs)

The Vulkan- and OpenGL-side texture objects hold driver handles; the model
keeps their dimensions and an allocation identifier (`id`) standing for the
bundle of driver handles, so that distinct allocations are distinguishable.
Driver calls are recorded as `TexEffect`s. -/

/-- The Vulkan-side image bundle (`VulkanSharedTexture` in the source),
abstracted to its dimensions plus an allocation identifier. -/
structure VulkanSharedTexture where
  id : Nat
  width : Nat
  height : Nat
deriving Repr, DecidableEq

/-- The OpenGL-side imported view (`OpenGLSharedTexture` in the source). -/
structure OpenGLSharedTexture where
  id : Nat
  width : Nat
  height : Nat
deriving Repr, DecidableEq

/-- `OpenGLSharedTexture::create`: the GL side imports the Vulkan image, so
it carries the same allocation id and dimensions. -/
def OpenGLSharedTexture.create (vk : VulkanSharedTexture) : OpenGLSharedTexture :=
  { id := vk.id, width := vk.width, height := vk.height }

/-- A retired image pair awaiting destruction (`Garbage` in the source). -/
structure Garbage where
  frame_lifetime : Nat
  vk : VulkanSharedTexture
  gl : OpenGLSharedTexture
deriving Repr, DecidableEq

/-- `DESTROY_AFTER_NUM_FRAMES` in the source. -/
def DESTROY_AFTER_NUM_FRAMES : Nat := 60

/-- GPU-visible calls issued by the shared-texture operations. -/
inductive TexEffect where
  /-- `before_vk`'s queue submit waiting on the `gl_complete` semaphore. -/
  | submitWaitGlComplete
  /-- `after_vk`'s queue submit signalling the `gl_ready` semaphore. -/
  | submitSignalGlReady
  /-- `VulkanSharedTexture::shutdown`. -/
  | destroyVkTexture (t : VulkanSharedTexture)
  /-- `OpenGLSharedTexture::shutdown`. -/
  | destroyGlTexture (t : OpenGLSharedTexture)
  /-- `gl::WaitSemaphoreEXT` on `gl_ready` inside `draw_gl`. -/
  | glWaitSemaphore
  /-- `gl::SignalSemaphoreEXT` on `gl_complete` inside `draw_gl`. -/
  | glSignalSemaphore
  /-- `gl::Flush` inside `draw_gl`. -/
  | glFlush
deriving Repr, DecidableEq

/-- Is the effect a Vulkan-queue semaphore submit (wait or signal)? -/
def TexEffect.isSemaphoreSubmit : TexEffect → Bool
  | .submitWaitGlComplete => true
  | .submitSignalGlReady => true
  | _ => false

/-- Is the effect a texture destruction? -/
def TexEffect.isDestroy : TexEffect → Bool
  | .destroyVkTexture _ => true
  | .destroyGlTexture _ => true
  | _ => false

/-- The lifecycle manager's state (`SharedTexture` in the source).
`next_id` is the model's allocation counter standing for the driver handing
out fresh handles. -/
structure SharedTexture where
  vk : VulkanSharedTexture
  gl : OpenGLSharedTexture
  ready : Bool
  gl_did_draw : Bool
  garbage : List Garbage
  resize_requested : Option (Nat × Nat)
  next_id : Nat
deriving Repr, DecidableEq

namespace SharedTexture

/-- `SharedTexture::create` for a fresh `w × h` image. -/
def create (w h : Nat) (id : Nat) : SharedTexture :=
  let vk : VulkanSharedTexture := { id := id, width := w, height := h }
  { ready := false
    vk := vk
    gl := OpenGLSharedTexture.create vk
    gl_did_draw := false
    garbage := []
    resize_requested := none
    next_id := id + 1 }

/-- `SharedTexture::is_ready`. -/
def is_ready (s : SharedTexture) : Bool := s.ready

/-- `SharedTexture::request_resize`: record a pending target only when the
dimensions differ from the current image's and neither is zero. -/
def request_resize (w h : Nat) (s : SharedTexture) : SharedTexture :=
  if (s.vk.width ≠ w ∨ s.vk.height ≠ h) ∧ w ≠ 0 ∧ h ≠ 0 then
    { s with resize_requested := some (w, h) }
  else
    s

/-- `SharedTexture::resize_maybe`: when a resize is pending, clear the
pending slot, allocate a fresh image pair at the new size, retire the old
pair into the garbage list at age 0, and reset `gl_did_draw` and `ready`.
No driver destruction happens here, so the effect list is empty. -/
def resize_maybe (s : SharedTexture) : SharedTexture × List TexEffect :=
  match s.resize_requested with
  | none => (s, [])
  | some (w, h) =>
    let new_vk : VulkanSharedTexture := { id := s.next_id, width := w, height := h }
    let new_gl := OpenGLSharedTexture.create new_vk
    ({ s with
        resize_requested := none
        vk := new_vk
        gl := new_gl
        garbage := s.garbage ++ [{ frame_lifetime := 0, vk := s.vk, gl := s.gl }]
        gl_did_draw := false
        ready := false
        next_id := s.next_id + 1 }, [])

/-- `SharedTexture::before_vk`: enqueue a wait on `gl_complete` only when
`gl_did_draw` is set, clearing the flag. -/
def before_vk (s : SharedTexture) : SharedTexture × List TexEffect :=
  if s.gl_did_draw then
    ({ s with gl_did_draw := false }, [TexEffect.submitWaitGlComplete])
  else
    (s, [])

/-- The aging pass of `after_vk`'s while-loop: every entry's age advances by
one; an entry whose new age exceeds `DESTROY_AFTER_NUM_FRAMES` is removed and
destroyed (Vulkan side then GL side), in list order. -/
def ageGarbage : List Garbage → List Garbage × List TexEffect
  | [] => ([], [])
  | g :: rest =>
    let g1 : Garbage := { g with frame_lifetime := g.frame_lifetime + 1 }
    let r := ageGarbage rest
    if DESTROY_AFTER_NUM_FRAMES < g1.frame_lifetime then
      (r.1, TexEffect.destroyVkTexture g1.vk :: TexEffect.destroyGlTexture g1.gl :: r.2)
    else
      (g1 :: r.1, r.2)

/-- `SharedTexture::after_vk`: unconditionally signal `gl_ready`, then run
the garbage aging pass. -/
def after_vk (s : SharedTexture) : SharedTexture × List TexEffect :=
  let r := ageGarbage s.garbage
  ({ s with garbage := r.1 }, TexEffect.submitSignalGlReady :: r.2)

/-- `SharedTexture::shutdown`: destroy the current Vulkan-side and GL-side
pair only (`&self`: the state, in particular the garbage list, is untouched). -/
def shutdownEffects (s : SharedTexture) : List TexEffect :=
  [TexEffect.destroyVkTexture s.vk, TexEffect.destroyGlTexture s.gl]

/-- `SharedTexture::draw_gl`: wait on `gl_ready`, run the producer callback
(whose result `didDraw` reports whether new content was drawn), set `ready`
only if it drew, signal `gl_complete`, flush — and set `gl_did_draw`
unconditionally. -/
def draw_gl (didDraw : Bool) (s : SharedTexture) : SharedTexture × List TexEffect :=
  ({ s with
      ready := if didDraw then true else s.ready
      gl_did_draw := true },
    [TexEffect.glWaitSemaphore, TexEffect.glSignalSemaphore, TexEffect.glFlush])

/-- Iterated `after_vk` (state part), for the 61-call scenario. -/
def iterAfterVk : Nat → SharedTexture → SharedTexture
  | 0, s => s
  | n + 1, s => iterAfterVk n (after_vk s).1

/-- Folding a whole sequence of `request_resize` calls, in order. -/
def applyResizes (s : SharedTexture) (calls : List (Nat × Nat)) : SharedTexture :=
  calls.foldl (fun t c => request_resize c.1 c.2 t) s

/-- Does a `request_resize (w, h)` call take effect in state `s`?
(the guard of `request_resize`). -/
def effectiveCall (s : SharedTexture) (c : Nat × Nat) : Bool :=
  decide ((s.vk.width ≠ c.1 ∨ s.vk.height ≠ c.2) ∧ c.1 ≠ 0 ∧ c.2 ≠ 0)

end SharedTexture

/-! ## Global::main_loop (src/vrmp/src/global.rs)

One loop iteration is embedded as the list of steps it performs, in order.
The booleans are the state tested by the loop body: whether VR is active
(`self.vr` / `self.vr_info` present), whether the per-second / 250 ms flags
fired this tick, whether the GUI overlay is on, and whether the previous
present reported a suboptimal swapchain. -/

/-- The observable steps of one `Global::main_loop` iteration. -/
inductive Step where
  /-- `Global::update_delta` — timing accumulation. -/
  | updateDelta
  /-- `Global::update_mpv` — decode-engine event poll; may call
  `shared_tex.request_resize`. -/
  | updateMpv
  /-- `Global::update_imgui` — UI frame preparation. -/
  | updateImgui
  /-- `Global::per_second_update` (runs when `is_per_sec_update`). -/
  | perSecondUpdate
  /-- `Global::fast_update` (runs when `is_fast_update`). -/
  | fastUpdate
  /-- `shared_tex.resize_maybe` (first half of `Global::before_vk_render`). -/
  | resizeMaybe
  /-- `shared_tex.before_vk` (second half of `Global::before_vk_render`). -/
  | beforeVk
  /-- `Global::vk_render`, left-eye scene pass (VR only). -/
  | renderLeftEye
  /-- `Global::vk_render`, right-eye scene pass (VR only). -/
  | renderRightEye
  /-- `Global::vk_render`, companion-window scene pass. -/
  | renderCompanion
  /-- `Global::vk_render`, GUI overlay pass (when `is_gui`). -/
  | renderImgui
  /-- `shared_tex.after_vk` (`Global::after_vk_render`). -/
  | afterVk
  /-- `Global::vr_present` — `submit_eye_textures` (VR only). -/
  | submitEyeTextures
  /-- `cmd_pool.submit_frame` (first half of `Global::vk_present`). -/
  | submitFrame
  /-- `frame.present()` — windowing-swapchain present. -/
  | presentFrame
  /-- `Global::gl_render` — `shared_tex.draw_gl`, the decode-side
  `produce()` draw callback. -/
  | drawGl
  /-- `Global::handle_sdl2_events` — input handling. -/
  | handleSdlEvents
  /-- `Global::handle_action_bin` — pending-action dispatch. -/
  | handleActionBin
  /-- Deferred swapchain reconfiguration (when `suboptimal` was set). -/
  | reconfigureSurface
  /-- `Global::wait_get_hmd_pose` (VR only). -/
  | waitGetHmdPose
deriving Repr, DecidableEq

/-- The step trace of one `Global::main_loop` iteration, following the
source order of the body and of the helpers it calls. -/
def mainLoopTrace (isVr isPerSec isFast isGui isSuboptimal : Bool) : List Step :=
  [Step.updateDelta, Step.updateMpv, Step.updateImgui]
    ++ (if isPerSec then [Step.perSecondUpdate] else [])
    ++ (if isFast then [Step.fastUpdate] else [])
    ++ [Step.resizeMaybe, Step.beforeVk]
    ++ (if isVr then [Step.renderLeftEye] else [])
    ++ (if isVr then [Step.renderRightEye] else [])
    ++ [Step.renderCompanion]
    ++ (if isGui then [Step.renderImgui] else [])
    ++ [Step.afterVk]
    ++ (if isVr then [Step.submitEyeTextures] else [])
    ++ [Step.submitFrame, Step.presentFrame, Step.drawGl,
        Step.handleSdlEvents, Step.handleActionBin]
    ++ (if isSuboptimal then [Step.reconfigureSurface] else [])
    ++ (if isVr then [Step.waitGetHmdPose] else [])

/-- The per-tick order the spec claims, written from the spec's step list
(claim C7), to be compared with `mainLoopTrace`: timing/update hooks first
(including the per-second and 250 ms hooks), then the decode-engine event
poll, then the rest. -/
def specTickOrder (isVr isPerSec isFast : Bool) : List Step :=
  [Step.updateDelta]
    ++ (if isPerSec then [Step.perSecondUpdate] else [])
    ++ (if isFast then [Step.fastUpdate] else [])
    ++ [Step.updateMpv, Step.resizeMaybe, Step.beforeVk]
    ++ (if isVr then [Step.renderLeftEye, Step.renderRightEye] else [])
    ++ [Step.renderCompanion, Step.afterVk]
    ++ (if isVr then [Step.submitEyeTextures] else [])
    ++ [Step.presentFrame, Step.drawGl, Step.handleSdlEvents, Step.handleActionBin]
    ++ (if isVr then [Step.waitGetHmdPose] else [])

/-- The per-tick order amended to match the source: identical to
`specTickOrder` except that the per-second and 250 ms update hooks fire
*after* the decode-engine event poll, not before it. -/
def amendedTickOrder (isVr isPerSec isFast : Bool) : List Step :=
  [Step.updateDelta, Step.updateMpv]
    ++ (if isPerSec then [Step.perSecondUpdate] else [])
    ++ (if isFast then [Step.fastUpdate] else [])
    ++ [Step.resizeMaybe, Step.beforeVk]
    ++ (if isVr then [Step.renderLeftEye, Step.renderRightEye] else [])
    ++ [Step.renderCompanion, Step.afterVk]
    ++ (if isVr then [Step.submitEyeTextures] else [])
    ++ [Step.presentFrame, Step.drawGl, Step.handleSdlEvents, Step.handleActionBin]
    ++ (if isVr then [Step.waitGetHmdPose] else [])

/-! ## VRInfo (src/vrmp/src/vrinfo.rs)

`glam`'s `f32` vector/matrix arithmetic is idealized over `ℚ`.  A `Mat4` is
column-major in glam; here it is a Mathlib matrix (`m i j` = row `i`,
column `j`, so glam's `x_axis` is column 0 and `w_axis` is column 3).
`Vec3::distance` is the square root of `distSq`; since the claim equates two
applications of the same square root, the model stores the squared value. -/

/-- 4×4 rational matrix standing for glam's `Mat4`. -/
abbrev Mat4 := Matrix (Fin 4) (Fin 4) ℚ

/-- Rational 3-vector standing for glam's `Vec3`. -/
abbrev Vec3q := Fin 3 → ℚ

/-- glam `Mat4::transform_point3`: `x_axis*x + y_axis*y + z_axis*z + w_axis`,
truncated to xyz (no perspective divide; assumes an affine matrix). -/
def transform_point3 (m : Mat4) (v : Vec3q) : Vec3q :=
  fun i => m i.castSucc 0 * v 0 + m i.castSucc 1 * v 1 + m i.castSucc 2 * v 2 + m i.castSucc 3

/-- The translation component of an affine `Mat4` (xyz of `w_axis`). -/
def translation (m : Mat4) : Vec3q :=
  fun i => m i.castSucc 3

/-- Squared Euclidean distance; glam's `Vec3::distance` is its square root. -/
def distSq (a b : Vec3q) : ℚ :=
  (a 0 - b 0) ^ 2 + (a 1 - b 1) ^ 2 + (a 2 - b 2) ^ 2

/-- glam `Mat4::inverse`: the cofactor (adjugate) matrix scaled by the
reciprocal of the determinant. -/
def mat4_inverse (m : Mat4) : Mat4 :=
  m.det⁻¹ • m.adjugate

/-- The fields of `VRInfo` the claims are about (`VRInfo` in the source;
projection matrices and per-eye render targets are dropped). -/
structure VRInfo where
  recommended_eye_size : Nat × Nat
  ipd_sq : ℚ
  eye_w : Nat
  eye_h : Nat
  left_eye_to_head_mat : Mat4
  right_eye_to_head_mat : Mat4

/-- `VRInfo::create`: double the runtime's recommended render-target size
(u32 arithmetic, hence mod `2^32`), invert the queried eye-to-head
transforms, and derive the IPD as the distance between the images of the
origin under the two inverted transforms. -/
def VRInfo.create (recW recH : Nat) (eyeToHeadL eyeToHeadR : Mat4) : VRInfo :=
  let eye_w := recW * 2 % 2 ^ 32
  let eye_h := recH * 2 % 2 ^ 32
  let left_eye_to_head_mat := mat4_inverse eyeToHeadL
  let right_eye_to_head_mat := mat4_inverse eyeToHeadR
  let lpt := transform_point3 left_eye_to_head_mat (fun _ => 0)
  let rpt := transform_point3 right_eye_to_head_mat (fun _ => 0)
  { recommended_eye_size := (recW, recH)
    ipd_sq := distSq lpt rpt
    eye_w := eye_w
    eye_h := eye_h
    left_eye_to_head_mat := left_eye_to_head_mat
    right_eye_to_head_mat := right_eye_to_head_mat }

/-! ## Concrete sample states, used by the witness theorems -/

/-- Age bump applied by `after_vk`'s loop to every garbage entry. -/
def bumpAge (g : Garbage) : Garbage :=
  { g with frame_lifetime := g.frame_lifetime + 1 }

/-- A small pool: two free buffers, one in-flight batch holding buffer 3,
one recycled list, current batch holding buffer 4. -/
def samplePool : CmdPool :=
  { free_cmd_bufs := [1, 2]
    active_awaiting_lists := [{ fence := 10, cmd_bufs := [3] }]
    free_awaiting_lists := [{ fence := 12, cmd_bufs := [] }]
    current_awaiting_list := { fence := 11, cmd_bufs := [4] } }

/-- `samplePool` after `get_buf` pops buffer 2. -/
def samplePoolAfterGet : CmdPool :=
  { free_cmd_bufs := [1]
    active_awaiting_lists := [{ fence := 10, cmd_bufs := [3] }]
    free_awaiting_lists := [{ fence := 12, cmd_bufs := [] }]
    current_awaiting_list := { fence := 11, cmd_bufs := [4, 2] } }

/-- A pool whose free list is empty while a signalled in-flight batch still
holds buffer 7. -/
def starvedPool : CmdPool :=
  { free_cmd_bufs := []
    active_awaiting_lists := [{ fence := 10, cmd_bufs := [7] }]
    free_awaiting_lists := []
    current_awaiting_list := { fence := 11, cmd_bufs := [] } }

/-- A 512×512 shared texture with `ready = true` and a pending resize to
1920×1080 (the C2 scenario's starting state). -/
def sampleTex : SharedTexture :=
  { vk := { id := 0, width := 512, height := 512 }
    gl := { id := 0, width := 512, height := 512 }
    ready := true
    gl_did_draw := false
    garbage := []
    resize_requested := some (1920, 1080)
    next_id := 1 }

/-- `sampleTex` right after `resize_maybe` retires the 512×512 image. -/
def sampleTexRetired : SharedTexture :=
  (SharedTexture.resize_maybe sampleTex).1

/-- A 512×512 shared texture at rest: nothing drawn, nothing pending. -/
def sampleTexIdle : SharedTexture :=
  { vk := { id := 0, width := 512, height := 512 }
    gl := { id := 0, width := 512, height := 512 }
    ready := false
    gl_did_draw := false
    garbage := []
    resize_requested := none
    next_id := 1 }

/-- `sampleTexRetired` whose retired entry has reached age 60: the next
`after_vk` call destroys it. -/
def sampleTexOld : SharedTexture :=
  { sampleTexRetired with
    garbage := [{ frame_lifetime := 60
                  vk := { id := 0, width := 512, height := 512 }
                  gl := { id := 0, width := 512, height := 512 } }] }

-- (more definitions are added above this line; theorems follow)

namespace CmdPool

lemma evalLoop_act (sig : Nat → Bool) (l : List CmdBufAwaitingList) :
    (evalLoop sig l).1 = l.filter (fun f => !sig f.fence) := by
  induction l with
  | nil => rfl
  | cons f rest ih =>
    by_cases h : sig f.fence <;> simp [evalLoop, h, List.filter_cons, ih]

lemma evalLoop_bufs (sig : Nat → Bool) (l : List CmdBufAwaitingList) :
    (evalLoop sig l).2.1 =
      ((l.filter (fun f => sig f.fence)).map CmdBufAwaitingList.cmd_bufs).flatten := by
  induction l with
  | nil => rfl
  | cons f rest ih =>
    by_cases h : sig f.fence <;> simp [evalLoop, h, List.filter_cons, ih]

lemma evalLoop_recycled (sig : Nat → Bool) (l : List CmdBufAwaitingList) :
    ((evalLoop sig l).2.2.map CmdBufAwaitingList.cmd_bufs).flatten = [] := by
  induction l with
  | nil => rfl
  | cons f rest ih =>
    by_cases h : sig f.fence <;> simp [evalLoop, h, ih]

/-- The fence poll only moves buffers around: the multiset of tracked
command buffers is unchanged by `evaluate_active_fences`. -/
lemma allBufs_evaluate (sig : Nat → Bool) (p : CmdPool) :
    ((allBufs (evaluate_active_fences sig p) : List Nat) : Multiset Nat) = (allBufs p : List Nat) := by
  have hperm :
      ((((p.active_awaiting_lists.filter (fun f => sig f.fence)).map
          CmdBufAwaitingList.cmd_bufs).flatten : List Nat) : Multiset Nat)
        + (((p.active_awaiting_lists.filter (fun f => !sig f.fence)).map
          CmdBufAwaitingList.cmd_bufs).flatten : List Nat)
      = ((p.active_awaiting_lists.map CmdBufAwaitingList.cmd_bufs).flatten : List Nat) := by
    rw [Multiset.coe_add, Multiset.coe_eq_coe, ← List.flatten_append, ← List.map_append]
    exact ((List.filter_append_perm _ p.active_awaiting_lists).map _).flatten
  simp only [evaluate_active_fences, allBufs, evalLoop_act, evalLoop_bufs, List.map_append,
    List.flatten_append, evalLoop_recycled, List.append_nil, ← Multiset.coe_add]
  rw [← hperm]
  abel

lemma Inv_evaluate (sig : Nat → Bool) (p : CmdPool) (h : Inv p) :
    Inv (evaluate_active_fences sig p) := by
  unfold Inv at h ⊢
  rw [← Multiset.coe_nodup] at h ⊢
  rw [allBufs_evaluate]
  exact h

/-- Membership in the free list after a fence poll: a buffer is free afterwards
iff it was free before or sat in a batch whose fence read signalled. -/
lemma mem_free_evaluate (sig : Nat → Bool) (p : CmdPool) (x : Nat) :
    x ∈ (evaluate_active_fences sig p).free_cmd_bufs ↔
      x ∈ p.free_cmd_bufs ∨
        ∃ l ∈ p.active_awaiting_lists, sig l.fence = true ∧ x ∈ l.cmd_bufs := by
  simp only [evaluate_active_fences, evalLoop_bufs, List.mem_append, List.mem_flatten,
    List.mem_map, List.mem_filter]
  constructor
  · rintro (h | ⟨bs, ⟨l, ⟨hl, hsig⟩, rfl⟩, hx⟩)
    · exact Or.inl h
    · exact Or.inr ⟨l, hl, hsig, hx⟩
  · rintro (h | ⟨l, hl, hsig, hx⟩)
    · exact Or.inl h
    · exact Or.inr ⟨l.cmd_bufs, ⟨l, ⟨hl, hsig⟩, rfl⟩, hx⟩

lemma allBufs_submit (sig : Nat → Bool) (nf : Nat) (p : CmdPool) :
    ((allBufs (submit_frame sig nf p) : List Nat) : Multiset Nat) = (allBufs p : List Nat) := by
  unfold submit_frame
  rw [allBufs_evaluate]
  unfold allocate_current_awaiting_list
  cases h : p.free_awaiting_lists.getLast? with
  | none =>
    simp only [allBufs, List.map_append, List.flatten_append, List.map_cons,
      List.flatten_cons, List.flatten_nil, List.append_nil, ← Multiset.coe_add]
    abel
  | some l =>
    have hfl : p.free_awaiting_lists.dropLast ++ [l] = p.free_awaiting_lists :=
      List.dropLast_append_getLast? _ h
    have hms :
        (((p.free_awaiting_lists.dropLast.map CmdBufAwaitingList.cmd_bufs).flatten :
            List Nat) : Multiset Nat) + ((l.cmd_bufs : List Nat) : Multiset Nat)
          = ((p.free_awaiting_lists.map CmdBufAwaitingList.cmd_bufs).flatten : List Nat) := by
      conv_rhs => rw [← hfl]
      simp [List.map_append, List.flatten_append, ← Multiset.coe_add]
    simp only [allBufs, List.map_append, List.flatten_append, List.map_cons,
      List.flatten_cons, List.flatten_nil, List.append_nil, ← Multiset.coe_add]
    rw [← hms]
    abel

lemma Inv_submit (sig : Nat → Bool) (nf : Nat) (p : CmdPool) (h : Inv p) :
    Inv (submit_frame sig nf p) := by
  unfold Inv at h ⊢
  rw [← Multiset.coe_nodup] at h ⊢
  rw [allBufs_submit]
  exact h

lemma mem_free_submit (sig : Nat → Bool) (nf : Nat) (p : CmdPool) (x : Nat) :
    x ∈ (submit_frame sig nf p).free_cmd_bufs ↔
      x ∈ p.free_cmd_bufs ∨
        ∃ l ∈ p.active_awaiting_lists ++ [p.current_awaiting_list],
          sig l.fence = true ∧ x ∈ l.cmd_bufs := by
  unfold submit_frame
  rw [mem_free_evaluate]

lemma get_buf_none_iff (p : CmdPool) : get_buf p = none ↔ p.free_cmd_bufs = [] := by
  unfold get_buf
  cases h : p.free_cmd_bufs.getLast? with
  | none => simpa using List.getLast?_eq_none_iff.mp h
  | some b =>
    simp only [reduceCtorEq, false_iff]
    intro hnil
    rw [hnil] at h
    exact Option.noConfusion h

lemma get_buf_some (p : CmdPool) (b : Nat) (p' : CmdPool)
    (h : get_buf p = some (b, p')) :
    p.free_cmd_bufs.dropLast ++ [b] = p.free_cmd_bufs ∧
    p' = { p with
      free_cmd_bufs := p.free_cmd_bufs.dropLast
      current_awaiting_list :=
        { p.current_awaiting_list with
          cmd_bufs := p.current_awaiting_list.cmd_bufs ++ [b] } } := by
  unfold get_buf at h
  cases hl : p.free_cmd_bufs.getLast? with
  | none => rw [hl] at h; exact Option.noConfusion h
  | some c =>
    rw [hl] at h
    obtain ⟨rfl, rfl⟩ : c = b ∧ _ = p' := by
      have := Option.some.inj h
      exact ⟨congrArg Prod.fst this, congrArg Prod.snd this⟩
    exact ⟨List.dropLast_append_getLast? _ hl, rfl⟩

lemma allBufs_get_buf (p : CmdPool) (b : Nat) (p' : CmdPool)
    (h : get_buf p = some (b, p')) :
    ((allBufs p' : List Nat) : Multiset Nat) = (allBufs p : List Nat) := by
  obtain ⟨hfl, rfl⟩ := get_buf_some p b p' h
  conv_rhs => rw [allBufs, ← hfl]
  simp only [allBufs, ← Multiset.coe_add]
  abel

lemma Inv_get_buf (p : CmdPool) (b : Nat) (p' : CmdPool)
    (hInv : Inv p) (h : get_buf p = some (b, p')) : Inv p' := by
  unfold Inv at hInv ⊢
  rw [← Multiset.coe_nodup] at hInv ⊢
  rw [allBufs_get_buf p b p' h]
  exact hInv

lemma get_buf_mem_free (p : CmdPool) (b : Nat) (p' : CmdPool)
    (h : get_buf p = some (b, p')) : b ∈ p.free_cmd_bufs := by
  obtain ⟨hfl, -⟩ := get_buf_some p b p' h
  rw [← hfl]
  simp

/-- Under the invariant, the buffer `get_buf` returns was in no batch:
not in any in-flight batch (signalled or not) and not in the current batch. -/
lemma get_buf_not_in_batches (p : CmdPool) (b : Nat) (p' : CmdPool)
    (hInv : Inv p) (h : get_buf p = some (b, p')) :
    (∀ l ∈ p.active_awaiting_lists, b ∉ l.cmd_bufs) ∧
      b ∉ p.current_awaiting_list.cmd_bufs := by
  have hmem : b ∈ p.free_cmd_bufs := get_buf_mem_free p b p' h
  have hnd : (p.free_cmd_bufs ++
      ((p.active_awaiting_lists.map CmdBufAwaitingList.cmd_bufs).flatten
        ++ (p.free_awaiting_lists.map CmdBufAwaitingList.cmd_bufs).flatten
        ++ p.current_awaiting_list.cmd_bufs)).Nodup := by
    have := hInv
    unfold Inv allBufs at this
    simpa [List.append_assoc] using this
  have hdisj := List.disjoint_of_nodup_append hnd
  constructor
  · intro l hl hb
    exact hdisj hmem (by
      refine List.mem_append.mpr (Or.inl (List.mem_append.mpr (Or.inl ?_)))
      exact List.mem_flatten.mpr ⟨l.cmd_bufs, List.mem_map.mpr ⟨l, hl, rfl⟩, hb⟩)
  · intro hb
    exact hdisj hmem (List.mem_append.mpr (Or.inr hb))

end CmdPool

namespace SharedTexture

lemma ageGarbage_keep (l : List Garbage) :
    (ageGarbage l).1 =
      (l.map bumpAge).filter
        (fun g => decide (g.frame_lifetime ≤ DESTROY_AFTER_NUM_FRAMES)) := by
  induction l with
  | nil => rfl
  | cons g rest ih =>
    by_cases h : DESTROY_AFTER_NUM_FRAMES < g.frame_lifetime + 1
    · simp [ageGarbage, h, ih, bumpAge, List.filter_cons, Nat.not_le.mpr h]
    · simp [ageGarbage, h, ih, bumpAge, List.filter_cons, Nat.not_lt.mp h]

lemma ageGarbage_destroys (l : List Garbage) :
    (ageGarbage l).2 =
      (((l.map bumpAge).filter
          (fun g => decide (DESTROY_AFTER_NUM_FRAMES < g.frame_lifetime))).map
        (fun g => [TexEffect.destroyVkTexture g.vk, TexEffect.destroyGlTexture g.gl])).flatten := by
  induction l with
  | nil => rfl
  | cons g rest ih =>
    by_cases h : DESTROY_AFTER_NUM_FRAMES < g.frame_lifetime + 1
    · simp [ageGarbage, h, ih, bumpAge, List.filter_cons]
    · simp [ageGarbage, h, ih, bumpAge, List.filter_cons, Nat.not_lt.mp h]

lemma ageGarbage_no_semaphore (l : List Garbage) :
    (ageGarbage l).2.filter TexEffect.isSemaphoreSubmit = [] := by
  induction l with
  | nil => rfl
  | cons g rest ih =>
    by_cases h : DESTROY_AFTER_NUM_FRAMES < g.frame_lifetime + 1 <;>
      simp [ageGarbage, h, ih, List.filter_cons, TexEffect.isSemaphoreSubmit]

lemma iterAfterVk_add (m n : Nat) (s : SharedTexture) :
    iterAfterVk (m + n) s = iterAfterVk n (iterAfterVk m s) := by
  induction m generalizing s with
  | zero => rw [Nat.zero_add]; rfl
  | succ k ih =>
    have hmn : k + 1 + n = (k + n) + 1 := by omega
    rw [hmn]
    show iterAfterVk (k + n) (after_vk s).1 = iterAfterVk n (iterAfterVk k (after_vk s).1)
    exact ih (after_vk s).1

lemma iterAfterVk_single (vkI : VulkanSharedTexture) (glI : OpenGLSharedTexture)
    (n : Nat) :
    ∀ (k : Nat), k + n ≤ DESTROY_AFTER_NUM_FRAMES → ∀ s : SharedTexture,
      s.garbage = [{ frame_lifetime := k, vk := vkI, gl := glI }] →
      (iterAfterVk n s).garbage = [{ frame_lifetime := k + n, vk := vkI, gl := glI }] := by
  induction n with
  | zero => intro k _ s hs; simpa [iterAfterVk] using hs
  | succ m ih =>
    intro k hk s hs
    show (iterAfterVk m (after_vk s).1).garbage = _
    have hstep : (after_vk s).1.garbage =
        [{ frame_lifetime := k + 1, vk := vkI, gl := glI }] := by
      have hle : k + 1 ≤ DESTROY_AFTER_NUM_FRAMES := by omega
      simp [after_vk, ageGarbage_keep, hs, bumpAge, List.filter_cons, hle]
    have hkm : k + (m + 1) = k + 1 + m := by omega
    rw [hkm]
    exact ih (k + 1) (by omega) (after_vk s).1 hstep

lemma request_resize_fields (w h : Nat) (t : SharedTexture) :
    (request_resize w h t).vk = t.vk ∧ (request_resize w h t).gl = t.gl ∧
    (request_resize w h t).ready = t.ready ∧
    (request_resize w h t).gl_did_draw = t.gl_did_draw ∧
    (request_resize w h t).garbage = t.garbage ∧
    (request_resize w h t).next_id = t.next_id := by
  unfold request_resize
  split <;> simp

lemma request_resize_requested (w h : Nat) (t : SharedTexture) :
    (request_resize w h t).resize_requested =
      if effectiveCall t (w, h) then some (w, h) else t.resize_requested := by
  by_cases hc : (t.vk.width ≠ w ∨ t.vk.height ≠ h) ∧ w ≠ 0 ∧ h ≠ 0 <;>
    simp [request_resize, effectiveCall, hc]

lemma effectiveCall_congr (t t' : SharedTexture) (h : t'.vk = t.vk) :
    effectiveCall t' = effectiveCall t := by
  funext c
  simp [effectiveCall, h]

end SharedTexture

/-! ## The claims -/

/-- C1: `get_buf` never returns a command buffer belonging to a batch whose
fence is unsignaled — under the pool invariant the popped buffer lies in no
in-flight batch at all and not in the current batch, and the invariant is
preserved; `submit_frame` preserves the invariant and moves a buffer back
into the free pool iff the batch holding it has a fence reading signaled at
the time of the non-blocking poll. -/
theorem C1_cmdpool_buffer_exclusivity
    (p : CmdPool) (sig : Nat → Bool) (nf b : Nat) (p' : CmdPool)
    (l : CmdBufAwaitingList) (x : Nat)
    (hInv : CmdPool.Inv p) (hget : CmdPool.get_buf p = some (b, p'))
    (hl : l ∈ p.active_awaiting_lists) :
    b ∉ l.cmd_bufs ∧
    b ∉ p.current_awaiting_list.cmd_bufs ∧
    CmdPool.Inv p' ∧
    CmdPool.Inv (CmdPool.submit_frame sig nf p) ∧
    (x ∈ (CmdPool.submit_frame sig nf p).free_cmd_bufs ↔
      x ∈ p.free_cmd_bufs ∨
        ∃ m ∈ p.active_awaiting_lists ++ [p.current_awaiting_list],
          sig m.fence = true ∧ x ∈ m.cmd_bufs) := by
  obtain ⟨hb1, hb2⟩ := CmdPool.get_buf_not_in_batches p b p' hInv hget
  exact ⟨hb1 l hl, hb2, CmdPool.Inv_get_buf p b p' hInv hget,
    CmdPool.Inv_submit sig nf p hInv, CmdPool.mem_free_submit sig nf p x⟩

/-- Witness for C1 on `samplePool`: `get_buf` pops buffer 2 and
`submit_frame` with fence 10 signaled reclaims buffer 3. -/
theorem C1_cmdpool_buffer_exclusivity_witness :
    CmdPool.Inv samplePool ∧
    CmdPool.get_buf samplePool = some (2, samplePoolAfterGet) ∧
    ({ fence := 10, cmd_bufs := [3] } : CmdBufAwaitingList) ∈
      samplePool.active_awaiting_lists ∧
    (2 ∉ ({ fence := 10, cmd_bufs := [3] } : CmdBufAwaitingList).cmd_bufs ∧
      2 ∉ samplePool.current_awaiting_list.cmd_bufs ∧
      CmdPool.Inv samplePoolAfterGet ∧
      CmdPool.Inv (CmdPool.submit_frame (fun f => decide (f = 10)) 13 samplePool) ∧
      (3 ∈ (CmdPool.submit_frame (fun f => decide (f = 10)) 13 samplePool).free_cmd_bufs ↔
        3 ∈ samplePool.free_cmd_bufs ∨
          ∃ m ∈ samplePool.active_awaiting_lists ++ [samplePool.current_awaiting_list],
            (fun f => decide (f = 10)) m.fence = true ∧ 3 ∈ m.cmd_bufs)) :=
  ⟨by decide, by decide, by decide,
    C1_cmdpool_buffer_exclusivity samplePool (fun f => decide (f = 10)) 13 2
      samplePoolAfterGet { fence := 10, cmd_bufs := [3] } 3
      (by decide) (by decide) (by decide)⟩

/-- C4 is false as stated: on `starvedPool` (empty free list, one in-flight
batch with a signaled fence holding buffer 7) `get_buf` aborts even though
polling the fences would have reclaimed buffer 7 — `get_buf` performs no
reclamation before aborting. -/
theorem C4_counterexample :
    CmdPool.get_buf starvedPool = none ∧
    (CmdPool.evaluate_active_fences (fun _ => true) starvedPool).free_cmd_bufs = [7] := by
  constructor
  · decide
  · decide

/-- C4 amended: `get_buf` aborts exactly when the free list is empty at the
time of the call, and performs no reclamation itself — on success it leaves
the in-flight batches and recycled lists untouched and only pops the free
list (buffers are reclaimed only by `submit_frame`'s fence poll). -/
theorem C4_get_buf_abort_iff_free_empty (p : CmdPool) :
    (CmdPool.get_buf p = none ↔ p.free_cmd_bufs = []) ∧
    (CmdPool.get_buf p).elim True
      (fun r => r.2.active_awaiting_lists = p.active_awaiting_lists ∧
        r.2.free_awaiting_lists = p.free_awaiting_lists ∧
        r.2.free_cmd_bufs = p.free_cmd_bufs.dropLast) := by
  refine ⟨CmdPool.get_buf_none_iff p, ?_⟩
  unfold CmdPool.get_buf
  cases h : p.free_cmd_bufs.getLast? <;> simp

/-- C9: `shutdown` waits on the fences of all in-flight batches with a
10-second (10 000 000 000 ns) timeout as its first driver call; the timeout
is logged exactly when the wait fails and changes nothing else: the
destruction calls are identical in both outcomes, and every fence (in-flight,
recycled, current) and the command pool are destroyed. -/
theorem C9_shutdown_bounded_wait_then_destroy
    (p : CmdPool) (timedOut : Bool) (l : CmdBufAwaitingList)
    (hl : l ∈ p.active_awaiting_lists ++ p.free_awaiting_lists ++
      [p.current_awaiting_list]) :
    (CmdPool.shutdownEffects timedOut p).head? =
      some (CmdPool.PoolEffect.waitFences
        (p.active_awaiting_lists.map CmdBufAwaitingList.fence) 10000000000) ∧
    (CmdPool.PoolEffect.logTimeoutError ∈ CmdPool.shutdownEffects timedOut p ↔
      timedOut = true) ∧
    (CmdPool.shutdownEffects true p).filter CmdPool.PoolEffect.isDestroy =
      (CmdPool.shutdownEffects false p).filter CmdPool.PoolEffect.isDestroy ∧
    CmdPool.PoolEffect.destroyFence l.fence ∈ CmdPool.shutdownEffects timedOut p ∧
    CmdPool.PoolEffect.destroyCommandPool ∈ CmdPool.shutdownEffects timedOut p := by
  refine ⟨rfl, ?_, ?_, ?_, ?_⟩
  · cases timedOut <;>
      simp [CmdPool.shutdownEffects, List.mem_append, List.mem_map]
  · simp [CmdPool.shutdownEffects, List.filter_append, CmdPool.PoolEffect.isDestroy]
  · rcases List.mem_append.mp hl with h12 | hcur
    · rcases List.mem_append.mp h12 with hact | hfree
      · simp only [CmdPool.shutdownEffects, List.mem_append]
        exact Or.inl (Or.inl (Or.inr
          (List.mem_map.mpr ⟨l.fence, List.mem_map.mpr ⟨l, hact, rfl⟩, rfl⟩)))
      · simp only [CmdPool.shutdownEffects, List.mem_append]
        exact Or.inl (Or.inr (List.mem_map.mpr ⟨l, hfree, rfl⟩))
    · have : l = p.current_awaiting_list := by simpa using hcur
      subst this
      simp [CmdPool.shutdownEffects, List.mem_append]
  · simp [CmdPool.shutdownEffects, List.mem_append]

/-- C7 is false as stated: when the per-second and 250 ms flags fired, the
spec's step order (update hooks before the decode-engine event poll) is not
a subsequence of the loop's trace — the poll (`update_mpv`) runs before
`per_second_update` and `fast_update`, not after. -/
theorem C7_counterexample :
    ¬ List.Sublist (specTickOrder true true true)
        (mainLoopTrace true true true false false) ∧
    List.Sublist [Step.updateMpv, Step.perSecondUpdate]
      (mainLoopTrace true true true false false) := by
  decide

/-- C7 amended: every loop iteration runs the claimed steps in the claimed
fixed order, none skipped — except that the per-second and 250 ms update
hooks fire after the decode-engine event poll, not before it; the decode-side
`produce()` draw callback runs exactly once per tick, after the single
windowing-swapchain present. -/
theorem C7_tick_order :
    ∀ isVr isPerSec isFast isGui isSuboptimal : Bool,
      List.Sublist (amendedTickOrder isVr isPerSec isFast)
        (mainLoopTrace isVr isPerSec isFast isGui isSuboptimal) ∧
      (mainLoopTrace isVr isPerSec isFast isGui isSuboptimal).count Step.drawGl = 1 ∧
      (mainLoopTrace isVr isPerSec isFast isGui isSuboptimal).count Step.presentFrame = 1 := by
  decide

/-- C2: with a pending resize `(w, h)`, one `resize_maybe` call makes the
current image `w × h`, clears `ready` and the pending slot, appends exactly
one garbage entry holding the old image pair at age 0, and performs no
destruction (empty effect list). -/
theorem C2_resizeimage_applies_pending (s : SharedTexture) (w h : Nat)
    (hreq : s.resize_requested = some (w, h)) :
    (SharedTexture.resize_maybe s).1.vk.width = w ∧
    (SharedTexture.resize_maybe s).1.vk.height = h ∧
    (SharedTexture.resize_maybe s).1.ready = false ∧
    (SharedTexture.resize_maybe s).1.resize_requested = none ∧
    (SharedTexture.resize_maybe s).1.garbage =
      s.garbage ++ [{ frame_lifetime := 0, vk := s.vk, gl := s.gl }] ∧
    (SharedTexture.resize_maybe s).2 = [] := by
  simp [SharedTexture.resize_maybe, hreq]

/-- Witness for C2 on the claim's scenario: current 512×512 with
`ready = true`, pending (1920, 1080). -/
theorem C2_resizeimage_applies_pending_witness :
    sampleTex.resize_requested = some (1920, 1080) ∧
    ((SharedTexture.resize_maybe sampleTex).1.vk.width = 1920 ∧
      (SharedTexture.resize_maybe sampleTex).1.vk.height = 1080 ∧
      (SharedTexture.resize_maybe sampleTex).1.ready = false ∧
      (SharedTexture.resize_maybe sampleTex).1.resize_requested = none ∧
      (SharedTexture.resize_maybe sampleTex).1.garbage =
        sampleTex.garbage ++
          [{ frame_lifetime := 0, vk := sampleTex.vk, gl := sampleTex.gl }] ∧
      (SharedTexture.resize_maybe sampleTex).2 = []) :=
  ⟨by decide, C2_resizeimage_applies_pending sampleTex 1920 1080 (by decide)⟩

/-- C5 is false as stated: after a `draw_gl` whose callback reports no new
content drawn (`ready` is unchanged), the next tick's `before_vk`
nevertheless enqueues a wait on the `gl_complete` semaphore, because
`draw_gl` sets `gl_did_draw` (and signals `gl_complete`) unconditionally. -/
theorem C5_counterexample :
    (SharedTexture.draw_gl false sampleTexIdle).1.ready = sampleTexIdle.ready ∧
    (SharedTexture.before_vk (SharedTexture.draw_gl false sampleTexIdle).1).2 =
      [TexEffect.submitWaitGlComplete] := by
  constructor
  · decide
  · decide

/-- C5 amended: `before_vk` enqueues the `gl_complete` wait iff the
`gl_did_draw` flag is set; the flag is set by every `draw_gl` invocation
regardless of whether new content was drawn.  So for two consecutive ticks
with no `draw_gl` invocation between them (flag clear), `before_vk` enqueues
no semaphore operation and the only semaphore submit of the tick is
`after_vk`'s unconditional `gl_ready` signal. -/
theorem C5_no_draw_no_wait (s : SharedTexture) (d : Bool)
    (h : s.gl_did_draw = false) :
    (SharedTexture.before_vk s).2 = [] ∧
    (SharedTexture.after_vk s).2.filter TexEffect.isSemaphoreSubmit =
      [TexEffect.submitSignalGlReady] ∧
    (SharedTexture.draw_gl d s).1.gl_did_draw = true ∧
    (SharedTexture.before_vk (SharedTexture.draw_gl d s).1).2 =
      [TexEffect.submitWaitGlComplete] := by
  refine ⟨?_, ?_, ?_, ?_⟩
  · simp [SharedTexture.before_vk, h]
  · simp [SharedTexture.after_vk, List.filter_cons, TexEffect.isSemaphoreSubmit,
      SharedTexture.ageGarbage_no_semaphore]
  · simp [SharedTexture.draw_gl]
  · simp [SharedTexture.draw_gl, SharedTexture.before_vk]

/-- Witness for C5 (amended) on `sampleTexIdle` with a no-content callback. -/
theorem C5_no_draw_no_wait_witness :
    sampleTexIdle.gl_did_draw = false ∧
    ((SharedTexture.before_vk sampleTexIdle).2 = [] ∧
      (SharedTexture.after_vk sampleTexIdle).2.filter TexEffect.isSemaphoreSubmit =
        [TexEffect.submitSignalGlReady] ∧
      (SharedTexture.draw_gl false sampleTexIdle).1.gl_did_draw = true ∧
      (SharedTexture.before_vk (SharedTexture.draw_gl false sampleTexIdle).1).2 =
        [TexEffect.submitWaitGlComplete]) :=
  ⟨by decide, C5_no_draw_no_wait sampleTexIdle false (by decide)⟩

/-- C3: each `after_vk` call advances every garbage entry's age by exactly 1
regardless of any other state and destroys exactly the entries whose new age
exceeds 60 (in list order, Vulkan side then GL side); after one retirement,
the entry is present with age `n` after `n ∈ [1, 60]` calls, absent after
call 61, and call 61 is the one that emits its destruction; no other
operation (`resize_maybe`, `before_vk`, `draw_gl`, `shutdown`) destroys a
garbage entry — `shutdown` destroys only the current pair. -/
theorem C3_garbage_aging
    (s t : SharedTexture) (d : Bool) (vkI : VulkanSharedTexture)
    (glI : OpenGLSharedTexture) (n : Nat)
    (hg : s.garbage = [{ frame_lifetime := 0, vk := vkI, gl := glI }])
    (hn1 : 1 ≤ n) (hn60 : n ≤ 60) :
    (SharedTexture.after_vk t).1.garbage =
      (t.garbage.map bumpAge).filter
        (fun g => decide (g.frame_lifetime ≤ DESTROY_AFTER_NUM_FRAMES)) ∧
    (SharedTexture.after_vk t).2 =
      TexEffect.submitSignalGlReady ::
        (((t.garbage.map bumpAge).filter
            (fun g => decide (DESTROY_AFTER_NUM_FRAMES < g.frame_lifetime))).map
          (fun g => [TexEffect.destroyVkTexture g.vk,
            TexEffect.destroyGlTexture g.gl])).flatten ∧
    (SharedTexture.iterAfterVk n s).garbage =
      [{ frame_lifetime := n, vk := vkI, gl := glI }] ∧
    (SharedTexture.iterAfterVk 61 s).garbage = [] ∧
    (SharedTexture.after_vk (SharedTexture.iterAfterVk 60 s)).2 =
      [TexEffect.submitSignalGlReady, TexEffect.destroyVkTexture vkI,
        TexEffect.destroyGlTexture glI] ∧
    (SharedTexture.resize_maybe t).2 = [] ∧
    (SharedTexture.before_vk t).2.filter TexEffect.isDestroy = [] ∧
    (SharedTexture.draw_gl d t).2.filter TexEffect.isDestroy = [] ∧
    SharedTexture.shutdownEffects t =
      [TexEffect.destroyVkTexture t.vk, TexEffect.destroyGlTexture t.gl] := by
  have h60 : (SharedTexture.iterAfterVk 60 s).garbage =
      [{ frame_lifetime := 60, vk := vkI, gl := glI }] := by
    simpa using SharedTexture.iterAfterVk_single vkI glI 60 0 (by decide) s hg
  refine ⟨?_, ?_, ?_, ?_, ?_, ?_, ?_, ?_, rfl⟩
  · simp [SharedTexture.after_vk, SharedTexture.ageGarbage_keep]
  · simp [SharedTexture.after_vk, SharedTexture.ageGarbage_destroys]
  · have hle : 0 + n ≤ DESTROY_AFTER_NUM_FRAMES := by
      show 0 + n ≤ 60
      omega
    simpa using SharedTexture.iterAfterVk_single vkI glI n 0 hle s hg
  · have h61 : (61 : Nat) = 60 + 1 := rfl
    rw [h61, SharedTexture.iterAfterVk_add]
    show ((SharedTexture.after_vk (SharedTexture.iterAfterVk 60 s)).1).garbage = []
    simp [SharedTexture.after_vk, SharedTexture.ageGarbage_keep, h60, bumpAge,
      DESTROY_AFTER_NUM_FRAMES]
  · simp [SharedTexture.after_vk, SharedTexture.ageGarbage_destroys, h60, bumpAge,
      DESTROY_AFTER_NUM_FRAMES]
  · rcases ht : t.resize_requested with _ | ⟨w', h'⟩ <;>
      simp [SharedTexture.resize_maybe, ht]
  · by_cases hd : t.gl_did_draw <;>
      simp [SharedTexture.before_vk, hd, TexEffect.isDestroy]
  · simp [SharedTexture.draw_gl, TexEffect.isDestroy]

/-- Witness for C3: the retired 512×512 image of `sampleTexRetired`, one
aging call (`n = 1`), auxiliary state `sampleTexIdle`. -/
theorem C3_garbage_aging_witness :
    sampleTexRetired.garbage =
      [{ frame_lifetime := 0, vk := { id := 0, width := 512, height := 512 },
         gl := { id := 0, width := 512, height := 512 } }] ∧
    ((SharedTexture.after_vk sampleTexIdle).1.garbage =
      (sampleTexIdle.garbage.map bumpAge).filter
        (fun g => decide (g.frame_lifetime ≤ DESTROY_AFTER_NUM_FRAMES)) ∧
    (SharedTexture.after_vk sampleTexIdle).2 =
      TexEffect.submitSignalGlReady ::
        (((sampleTexIdle.garbage.map bumpAge).filter
            (fun g => decide (DESTROY_AFTER_NUM_FRAMES < g.frame_lifetime))).map
          (fun g => [TexEffect.destroyVkTexture g.vk,
            TexEffect.destroyGlTexture g.gl])).flatten ∧
    (SharedTexture.iterAfterVk 1 sampleTexRetired).garbage =
      [{ frame_lifetime := 1, vk := { id := 0, width := 512, height := 512 },
         gl := { id := 0, width := 512, height := 512 } }] ∧
    (SharedTexture.iterAfterVk 61 sampleTexRetired).garbage = [] ∧
    (SharedTexture.after_vk (SharedTexture.iterAfterVk 60 sampleTexRetired)).2 =
      [TexEffect.submitSignalGlReady,
        TexEffect.destroyVkTexture { id := 0, width := 512, height := 512 },
        TexEffect.destroyGlTexture { id := 0, width := 512, height := 512 }] ∧
    (SharedTexture.resize_maybe sampleTexIdle).2 = [] ∧
    (SharedTexture.before_vk sampleTexIdle).2.filter TexEffect.isDestroy = [] ∧
    (SharedTexture.draw_gl false sampleTexIdle).2.filter TexEffect.isDestroy = [] ∧
    SharedTexture.shutdownEffects sampleTexIdle =
      [TexEffect.destroyVkTexture sampleTexIdle.vk,
        TexEffect.destroyGlTexture sampleTexIdle.gl]) :=
  ⟨by decide,
    C3_garbage_aging sampleTexRetired sampleTexIdle false
      { id := 0, width := 512, height := 512 }
      { id := 0, width := 512, height := 512 } 1
      (by decide) (by decide) (by decide)⟩

/-- C6: over any sequence of `request_resize` calls the pending target is
determined by the last call whose dimensions differ from the current image's
and are both nonzero (last-writer-wins, no queue); calls with unchanged or
zero dimensions leave the pending state unchanged, and no call touches any
other field. -/
theorem C6_request_resize_last_writer (s : SharedTexture)
    (calls : List (Nat × Nat)) :
    (SharedTexture.applyResizes s calls).resize_requested =
      ((calls.filter (SharedTexture.effectiveCall s)).getLast?).elim
        s.resize_requested some ∧
    (SharedTexture.applyResizes s calls).vk = s.vk ∧
    (SharedTexture.applyResizes s calls).gl = s.gl ∧
    (SharedTexture.applyResizes s calls).ready = s.ready ∧
    (SharedTexture.applyResizes s calls).gl_did_draw = s.gl_did_draw ∧
    (SharedTexture.applyResizes s calls).garbage = s.garbage ∧
    (SharedTexture.applyResizes s calls).next_id = s.next_id := by
  induction calls generalizing s with
  | nil => simp [SharedTexture.applyResizes]
  | cons c cs ih =>
    have hfields := SharedTexture.request_resize_fields c.1 c.2 s
    have ihs := ih (SharedTexture.request_resize c.1 c.2 s)
    have hec : SharedTexture.effectiveCall (SharedTexture.request_resize c.1 c.2 s) =
        SharedTexture.effectiveCall s :=
      SharedTexture.effectiveCall_congr s _ hfields.1
    have happly : SharedTexture.applyResizes s (c :: cs) =
        SharedTexture.applyResizes (SharedTexture.request_resize c.1 c.2 s) cs := rfl
    rw [happly]
    refine ⟨?_, ihs.2.1.trans hfields.1, ihs.2.2.1.trans hfields.2.1,
      ihs.2.2.2.1.trans hfields.2.2.1, ihs.2.2.2.2.1.trans hfields.2.2.2.1,
      ihs.2.2.2.2.2.1.trans hfields.2.2.2.2.1, ihs.2.2.2.2.2.2.trans hfields.2.2.2.2.2⟩
    rw [ihs.1, hec, List.filter_cons]
    by_cases hc : SharedTexture.effectiveCall s c
    · rw [if_pos hc]
      have hs1r : (SharedTexture.request_resize c.1 c.2 s).resize_requested = some c := by
        rw [SharedTexture.request_resize_requested]
        simp [hc]
      cases hfl : cs.filter (SharedTexture.effectiveCall s) with
      | nil => simp [hs1r]
      | cons e es =>
        cases hx : (e :: es).getLast? with
        | none => simp at hx
        | some x => simp [hx, List.getLast?_cons_cons]
    · rw [if_neg hc]
      have hs1r : (SharedTexture.request_resize c.1 c.2 s).resize_requested =
          s.resize_requested := by
        rw [SharedTexture.request_resize_requested]
        simp [hc]
      rw [hs1r]

/-- C10: with a non-empty garbage list, `shutdown` destroys only the current
image pair and touches no retired entry; a destruction effect of `after_vk`
always names a garbage entry whose advanced age exceeds the 60-frame
threshold, so entries still pending at shutdown (and never aged past the
threshold) are never destroyed. -/
theorem C10_shutdown_spares_garbage
    (s t : SharedTexture) (g : Garbage) (e : TexEffect)
    (hne : s.garbage ≠ []) (hg : g ∈ s.garbage)
    (hvk : g.vk ≠ s.vk) (hgl : g.gl ≠ s.gl)
    (he : e ∈ (SharedTexture.after_vk t).2) (hd : e.isDestroy = true) :
    SharedTexture.shutdownEffects s =
      [TexEffect.destroyVkTexture s.vk, TexEffect.destroyGlTexture s.gl] ∧
    TexEffect.destroyVkTexture g.vk ∉ SharedTexture.shutdownEffects s ∧
    TexEffect.destroyGlTexture g.gl ∉ SharedTexture.shutdownEffects s ∧
    ∃ g' ∈ t.garbage, DESTROY_AFTER_NUM_FRAMES < g'.frame_lifetime + 1 ∧
      (e = TexEffect.destroyVkTexture g'.vk ∨ e = TexEffect.destroyGlTexture g'.gl) := by
  refine ⟨rfl, ?_, ?_, ?_⟩
  · simp [SharedTexture.shutdownEffects, hvk]
  · simp [SharedTexture.shutdownEffects, hgl]
  · have he2 : e ∈ (((t.garbage.map bumpAge).filter
        (fun g => decide (DESTROY_AFTER_NUM_FRAMES < g.frame_lifetime))).map
          (fun g => [TexEffect.destroyVkTexture g.vk,
            TexEffect.destroyGlTexture g.gl])).flatten := by
      have := he
      simp only [SharedTexture.after_vk, SharedTexture.ageGarbage_destroys,
        List.mem_cons] at this
      rcases this with h1 | h2
      · rw [h1] at hd
        simp [TexEffect.isDestroy] at hd
      · exact h2
    rcases List.mem_flatten.mp he2 with ⟨bs, hbs, hebs⟩
    rcases List.mem_map.mp hbs with ⟨g1, hg1, rfl⟩
    rcases List.mem_filter.mp hg1 with ⟨hg1m, hg1f⟩
    rcases List.mem_map.mp hg1m with ⟨g0, hg0, rfl⟩
    refine ⟨g0, hg0, by simpa [bumpAge] using of_decide_eq_true hg1f, ?_⟩
    simpa [bumpAge] using hebs

/-- Witness for C10: `sampleTexRetired` has the retired 512×512 entry and a
distinct current 1920×1080 pair; `sampleTexOld`'s entry is at age 60, so the
next `after_vk` emits its destruction. -/
theorem C10_shutdown_spares_garbage_witness :
    sampleTexRetired.garbage ≠ [] ∧
    ({ frame_lifetime := 0, vk := { id := 0, width := 512, height := 512 },
       gl := { id := 0, width := 512, height := 512 } } : Garbage) ∈
      sampleTexRetired.garbage ∧
    (TexEffect.destroyVkTexture { id := 0, width := 512, height := 512 } ∈
      (SharedTexture.after_vk sampleTexOld).2) ∧
    (SharedTexture.shutdownEffects sampleTexRetired =
      [TexEffect.destroyVkTexture sampleTexRetired.vk,
        TexEffect.destroyGlTexture sampleTexRetired.gl] ∧
      TexEffect.destroyVkTexture { id := 0, width := 512, height := 512 } ∉
        SharedTexture.shutdownEffects sampleTexRetired ∧
      TexEffect.destroyGlTexture { id := 0, width := 512, height := 512 } ∉
        SharedTexture.shutdownEffects sampleTexRetired ∧
      ∃ g' ∈ sampleTexOld.garbage,
        DESTROY_AFTER_NUM_FRAMES < g'.frame_lifetime + 1 ∧
        (TexEffect.destroyVkTexture { id := 0, width := 512, height := 512 } =
            TexEffect.destroyVkTexture g'.vk ∨
          TexEffect.destroyVkTexture { id := 0, width := 512, height := 512 } =
            TexEffect.destroyGlTexture g'.gl)) :=
  ⟨by decide, by decide, by decide,
    C10_shutdown_spares_garbage sampleTexRetired sampleTexOld
      { frame_lifetime := 0, vk := { id := 0, width := 512, height := 512 },
        gl := { id := 0, width := 512, height := 512 } : Garbage }
      (TexEffect.destroyVkTexture { id := 0, width := 512, height := 512 })
      (by decide) (by decide) (by decide) (by decide) (by decide) (by decide)⟩

/-- C8: at VR-session start the per-eye surface dimensions are exactly twice
the runtime's recommended render-target size (no u32 overflow assumed), and
the stored IPD (kept squared in the ℚ model, under the identical `sqrt` on
both sides) is the Euclidean distance between the translation components of
the two stored per-eye-to-head transforms (the inverted queried
eye-to-head matrices). -/
theorem C8_vrinfo_create (recW recH : Nat) (L R : Mat4)
    (hw : recW * 2 < 2 ^ 32) (hh : recH * 2 < 2 ^ 32) :
    (VRInfo.create recW recH L R).eye_w = 2 * recW ∧
    (VRInfo.create recW recH L R).eye_h = 2 * recH ∧
    (VRInfo.create recW recH L R).left_eye_to_head_mat = mat4_inverse L ∧
    (VRInfo.create recW recH L R).right_eye_to_head_mat = mat4_inverse R ∧
    (VRInfo.create recW recH L R).ipd_sq =
      distSq (translation (VRInfo.create recW recH L R).left_eye_to_head_mat)
        (translation (VRInfo.create recW recH L R).right_eye_to_head_mat) := by
  have key : ∀ m : Mat4, transform_point3 m (fun _ => 0) = translation m := by
    intro m
    funext i
    simp [transform_point3, translation]
  refine ⟨?_, ?_, rfl, rfl, ?_⟩
  · show recW * 2 % 2 ^ 32 = 2 * recW
    rw [Nat.mod_eq_of_lt hw, Nat.mul_comm]
  · show recH * 2 % 2 ^ 32 = 2 * recH
    rw [Nat.mod_eq_of_lt hh, Nat.mul_comm]
  · show distSq (transform_point3 (mat4_inverse L) fun _ => 0)
        (transform_point3 (mat4_inverse R) fun _ => 0) = _
    rw [key, key]
    rfl

/-- Witness for C8 at a 1424×1768 recommended size and identity eye-to-head
transforms. -/
theorem C8_vrinfo_create_witness :
    1424 * 2 < 2 ^ 32 ∧ 1768 * 2 < 2 ^ 32 ∧
    ((VRInfo.create 1424 1768 1 1).eye_w = 2 * 1424 ∧
      (VRInfo.create 1424 1768 1 1).eye_h = 2 * 1768 ∧
      (VRInfo.create 1424 1768 1 1).left_eye_to_head_mat = mat4_inverse 1 ∧
      (VRInfo.create 1424 1768 1 1).right_eye_to_head_mat = mat4_inverse 1 ∧
      (VRInfo.create 1424 1768 1 1).ipd_sq =
        distSq (translation (VRInfo.create 1424 1768 1 1).left_eye_to_head_mat)
          (translation (VRInfo.create 1424 1768 1 1).right_eye_to_head_mat)) :=
  ⟨by norm_num, by norm_num, C8_vrinfo_create 1424 1768 1 1 (by norm_num) (by norm_num)⟩

/-- Witness for C9 on `samplePool`, recycled-list fence 12, wait timed out. -/
theorem C9_shutdown_bounded_wait_then_destroy_witness :
    ({ fence := 12, cmd_bufs := [] } : CmdBufAwaitingList) ∈
      samplePool.active_awaiting_lists ++ samplePool.free_awaiting_lists ++
        [samplePool.current_awaiting_list] ∧
    ((CmdPool.shutdownEffects true samplePool).head? =
      some (CmdPool.PoolEffect.waitFences
        (samplePool.active_awaiting_lists.map CmdBufAwaitingList.fence) 10000000000) ∧
    (CmdPool.PoolEffect.logTimeoutError ∈ CmdPool.shutdownEffects true samplePool ↔
      true = true) ∧
    (CmdPool.shutdownEffects true samplePool).filter CmdPool.PoolEffect.isDestroy =
      (CmdPool.shutdownEffects false samplePool).filter CmdPool.PoolEffect.isDestroy ∧
    CmdPool.PoolEffect.destroyFence
        ({ fence := 12, cmd_bufs := [] } : CmdBufAwaitingList).fence ∈
      CmdPool.shutdownEffects true samplePool ∧
    CmdPool.PoolEffect.destroyCommandPool ∈ CmdPool.shutdownEffects true samplePool) :=
  ⟨by decide,
    C9_shutdown_bounded_wait_then_destroy samplePool true
      { fence := 12, cmd_bufs := [] } (by decide)⟩

end Vrmp
